import Mathlib

/-!
Tile data lifecycle of mbgl (`VectorTileData`, `RasterTileData`).

A shallow embedding of `src/mbgl/map/vector_tile_data.cpp` and
`src/mbgl/map/raster_tile_data.cpp`.

The record of one tile is a structure; the collaborators it talks to (the
fetch environment, the worker pool, the caller's completion callbacks) are
explicit state next to it, so every member function is a pure function on a
"world" made of the record, the environment, the worker and the log of the
callbacks that were invoked.
-/

namespace mbgl

/-- The enumeration `TileData::State`. The fifth value is spelled `partial` in
the C++ source; that word is reserved in Lean, hence `partialTile`. -/
inductive State
  | invalid
  | initial
  | loading
  | loaded
  | partialTile
  | parsed
  | obsolete
  deriving DecidableEq, Repr

/-- A `float` angle. The code only stores angles and compares them with `!=`;
the comparison is `Angle.ne`, under which a NaN differs from every value,
itself included. -/
inductive Angle
  | nan
  | val (x : Int)
  deriving DecidableEq, Repr

/-- The C++ comparison `a != b` on two `float` angles. -/
def Angle.ne : Angle → Angle → Bool
  | .val x, .val y => x != y
  | _, _ => true

/-- A caller's completion callback (`std::function<void()>`), named by a number.
Invoking it appends its name to the log `fired` of the world. -/
abbrev Callback := Nat

/-- The `Response` handed to a fetch callback: `status` (here: whether it is
`Response::Successful`), `message` and `data`. -/
structure Response where
  successful : Bool
  message : String
  data : String
  deriving DecidableEq, Repr

/-- Modelled from the spec: an outstanding fetch of the environment (the class
`Request` is only forward-declared in the sources). It keeps what the lambda
passed to `env.request` captured: the URL and the caller's callback. -/
structure Request where
  id : Nat
  url : String
  callback : Callback
  deriving DecidableEq, Repr

/-- Modelled from the spec: the fetch service `Environment` (§6, "fetch(kind,
url) -> Handle ... cancel(handle)"), whose code is not among the sources. It
holds the outstanding fetches and the next handle it will hand out. -/
structure Environment where
  nextRequest : Nat
  requests : List Request
  deriving DecidableEq, Repr

/-- Modelled from the spec: `env.request(resource, callback)` registers a new
outstanding fetch and returns its handle. -/
def Environment.request (env : Environment) (url : String) (callback : Callback) :
    Nat × Environment :=
  (env.nextRequest,
   { nextRequest := env.nextRequest + 1,
     requests := env.requests ++ [{ id := env.nextRequest, url := url, callback := callback }] })

/-- Modelled from the spec: `env.cancelRequest(req)` drops the fetch with that
handle; its callback will not be invoked. -/
def Environment.cancelRequest (env : Environment) (req : Nat) : Environment :=
  { env with requests := env.requests.filter (fun r => r.id != req) }

/-- The three lambdas the two tile classes hand to `worker.send` as the unit of
work: the raster decode (raster_tile_data.cpp:46-56), the vector parse
(vector_tile_data.cpp:72-89) and the placement recompute
(vector_tile_data.cpp:132), which captures `angle` and `collisionDebug`. -/
inductive Work
  | decode
  | parse
  | placement (angle : Angle) (collisionDebug : Bool)
  deriving DecidableEq, Repr

/-- The second argument of `worker.send`: the caller's callback, or the bound
member function `endRedoPlacement` (vector_tile_data.cpp:131). -/
inductive After
  | callback (cb : Callback)
  | endRedoPlacement
  deriving DecidableEq, Repr

/-- Modelled from the spec: one unit of work submitted to the worker, together
with its completion callback (§4.1). -/
structure Task where
  id : Nat
  work : Work
  after : After
  deriving DecidableEq, Repr

/-- Modelled from the spec: the worker dispatcher (§4.1), whose code is not
among the sources. `tasks` are the submitted units of work that have neither
completed nor been cancelled; `nextTask` counts the submissions. -/
structure Worker where
  nextTask : Nat
  tasks : List Task
  deriving DecidableEq, Repr

/-- Modelled from the spec: `worker.send(work, after)` submits one task and
returns its handle (the `WorkRequest`). -/
def Worker.send (w : Worker) (work : Work) (after : After) : Nat × Worker :=
  (w.nextTask,
   { nextTask := w.nextTask + 1,
     tasks := w.tasks ++ [{ id := w.nextTask, work := work, after := after }] })

/-- Modelled from the spec: destroying a `WorkRequest` (§2, "dropping/resetting
it signals discard the result, do not invoke the completion callback"). -/
def Worker.cancel (w : Worker) (handle : Nat) : Worker :=
  { w with tasks := w.tasks.filter (fun t => t.id != handle) }

/-- Assigning to, or resetting, a `std::unique_ptr<WorkRequest>` destroys the
`WorkRequest` it held, if any. -/
def Worker.release (w : Worker) : Option Nat → Worker
  | none => w
  | some handle => w.cancel handle

/-! ## The vector tile record -/

/-- Modelled from the spec: a bucket of render data (`Bucket` is only
forward-declared in the sources). §4.5: the render data computed "next" is
swapped into the "current" render data by `swapRenderData`. -/
structure Bucket where
  renderData : Nat
  renderDataInProgress : Nat
  deriving DecidableEq, Repr

/-- Modelled from the spec: `bucket->swapRenderData()`, the double-buffer swap
of §4.5. -/
def Bucket.swapRenderData (b : Bucket) : Bucket :=
  { renderData := b.renderDataInProgress, renderDataInProgress := b.renderData }

/-- Modelled from the spec: a style layer descriptor (§6: id, bucket-kind tag).
`bucket` is the name of the style bucket `layer.bucket` points to, `none` for a
null pointer. -/
structure StyleLayer where
  id : String
  bucket : Option String
  deriving DecidableEq, Repr

/-- Modelled from the spec: the collision index of §3, for one (angle,
debug-flag) configuration. -/
structure CollisionTile where
  angle : Angle
  collisionDebug : Bool
  boxes : List Nat
  deriving DecidableEq, Repr

/-- Modelled from the spec: the member `workerData` (class `TileWorker`, whose
header is not among the sources): the style layers it iterates
(`workerData.style.layers`), the decoded-layer-to-bucket mapping and the
collision index (§3). -/
structure TileWorker where
  layers : List StyleLayer
  buckets : List (String × Bucket)
  collision : CollisionTile
  deriving DecidableEq, Repr

/-- Modelled from the spec: `workerData.getBucket(layer)`, the bucket stored
under the name of the layer's style bucket, if any. -/
def TileWorker.getBucket (wd : TileWorker) (name : String) : Option Bucket :=
  (wd.buckets.find? (fun p => p.1 == name)).map (fun p => p.2)

/-- Modelled from the spec: applies `f` to the bucket `workerData.getBucket`
finds under `name`, in place. -/
def TileWorker.modifyBucket (wd : TileWorker) (name : String) (f : Bucket → Bucket) :
    TileWorker :=
  match wd.buckets.findIdx? (fun p => p.1 == name) with
  | none => wd
  | some i => { wd with buckets := wd.buckets.modify (fun p => (p.1, f p.2)) i }

/-- What the two .cpp files use of declarations that are not among the
sources, taken as parameters: the inline members `isReady()` and
`isImmutable()` of the base class `TileData` (functions of `state`), and the
effect of `workerData.collision->reset(0, 0)` on the worker data. -/
structure TileDataDecl where
  isReady : State → Bool
  isImmutable : State → Bool
  resetCollision : TileWorker → TileWorker

/-- Modelled from the spec: one instance of the absent declarations, used where
a concrete one is needed: a tile is ready when `partial` or `parsed`, immutable
when `parsed` or `obsolete`, and resetting the collision index empties it at
angle 0. -/
def TileDataDecl.header : TileDataDecl where
  isReady := fun s => s == .partialTile || s == .parsed
  isImmutable := fun s => s == .parsed || s == .obsolete
  resetCollision := fun wd =>
    { wd with collision := { wd.collision with angle := .val 0, boxes := [] } }

/-- The variant `TileParseResult` returned by `workerData.parse`: a `State` or
an error message (`std::string`). -/
inductive TileParseResult
  | state (s : State)
  | error (message : String)
  deriving DecidableEq, Repr

/-- The data members of `VectorTileData` (vector_tile_data.hpp:45-58) with
`state` and `error` of its base class `TileData`. `req` is the raw pointer
`Request *req` (`none` for `nullptr`), `workRequest` the
`std::unique_ptr<WorkRequest>`, `parsing` the `std::atomic_flag`. -/
structure VectorTileData where
  state : State
  error : String
  req : Option Nat
  data : String
  workerData : TileWorker
  workRequest : Option Nat
  parsing : Bool
  lastAngle : Angle
  currentAngle : Angle
  lastCollisionDebug : Bool
  currentCollisionDebug : Bool
  redoingPlacement : Bool
  deriving DecidableEq, Repr

/-- A vector tile record together with the collaborators its member functions
act on: the fetch environment `env`, the `worker`, and the log `fired` of the
callers' callbacks invoked so far (latest last). -/
structure VectorWorld where
  tile : VectorTileData
  env : Environment
  worker : Worker
  fired : List Callback
  deriving DecidableEq, Repr

/-- The constructor, vector_tile_data.cpp:17-35, with the default member
initialisers of vector_tile_data.hpp. The base class starts in `initial`. -/
def VectorTileData.create (layers : List StyleLayer) (angle : Angle) (collisionDebug : Bool) :
    VectorTileData where
  state := .initial
  error := ""
  req := none
  data := ""
  workerData := { layers := layers, buckets := [],
                  collision := { angle := angle, collisionDebug := collisionDebug, boxes := [] } }
  workRequest := none
  parsing := false
  lastAngle := angle
  currentAngle := angle
  lastCollisionDebug := false
  currentCollisionDebug := false
  redoingPlacement := false

/-- `VectorTileData::mayStartParsing`, vector_tile_data.cpp:158-160:
`!parsing.test_and_set()`. Returns the answer and the record with the flag set. -/
def VectorTileData.mayStartParsing (t : VectorTileData) : Bool × VectorTileData :=
  (!t.parsing, { t with parsing := true })

/-- `VectorTileData::endParsing`, vector_tile_data.cpp:162-164. -/
def VectorTileData.endParsing (t : VectorTileData) : VectorTileData :=
  { t with parsing := false }

/-- `VectorTileData::setState`, vector_tile_data.cpp:106-114. `none` is the
failure of `assert(!isImmutable())`. -/
def VectorTileData.setState (h : TileDataDecl) (t : VectorTileData) (state_ : State) :
    Option VectorTileData :=
  if h.isImmutable t.state then none
  else
    let t1 := { t with state := state_ }
    if h.isImmutable t1.state then
      some { t1 with workerData := h.resetCollision t1.workerData }
    else some t1

/-- `VectorTileData::setError`, vector_tile_data.cpp:166-169. -/
def VectorTileData.setError (h : TileDataDecl) (t : VectorTileData) (message : String) :
    Option VectorTileData :=
  VectorTileData.setState h { t with error := message } .obsolete

/-- `VectorTileData::reparse`, vector_tile_data.cpp:67-92. The new task is sent
first; assigning its handle to `workRequest` then destroys the handle held
before. -/
def VectorWorld.reparse (w : VectorWorld) (callback : Callback) : Bool × VectorWorld :=
  let r := w.tile.mayStartParsing
  if !r.1 then (false, { w with tile := r.2 })
  else
    let sent := w.worker.send .parse (.callback callback)
    (true, { w with tile := { r.2 with workRequest := some sent.1 },
                    worker := sent.2.release r.2.workRequest })

/-- `VectorTileData::request`, vector_tile_data.cpp:43-65, up to the call of
`env.request`; `url` is the value of `source.tileURL(id, pixelRatio)`. The
lambda is `VectorWorld.onResponse`. -/
def VectorWorld.request (w : VectorWorld) (url : String) (callback : Callback) : VectorWorld :=
  let t1 := { w.tile with state := .loading }
  let issued := w.env.request url callback
  { w with tile := { t1 with req := some issued.1 }, env := issued.2 }

/-- The lambda passed to `env.request`, vector_tile_data.cpp:49-64, with its
captures `url` and `callback`, run on the response `res`. -/
def VectorWorld.onResponse (h : TileDataDecl) (w : VectorWorld) (url : String)
    (callback : Callback) (res : Response) : Option VectorWorld :=
  let t1 := { w.tile with req := none }
  if !res.successful then
    match VectorTileData.setError h t1 ("Failed to load [" ++ url ++ "]: " ++ res.message) with
    | none => none
    | some t2 => some { w with tile := t2, fired := w.fired ++ [callback] }
  else
    let t2 := { t1 with state := .loaded, data := res.data }
    some (VectorWorld.reparse { w with tile := t2 } callback).2

/-- Lines 77-88 of the parse lambda: what it does once `workerData.parse` has
returned `result` and left the worker data as `parsed`, on the record as it is
at that moment. -/
def VectorTileData.parseCommit (h : TileDataDecl) (t : VectorTileData) (parsed : TileWorker)
    (result : TileParseResult) : Option VectorTileData :=
  let t1 := { t with workerData := parsed }
  if t1.state == .obsolete then some t1
  else
    match result with
    | .state s => (VectorTileData.setState h t1 s).map VectorTileData.endParsing
    | .error message => (VectorTileData.setError h t1 message).map VectorTileData.endParsing

/-- The parse lambda sent by `reparse`, vector_tile_data.cpp:72-89, run in one
piece on the record `t`. The outcome of the call `workerData.parse(vectorTile)`
(code not among the sources) is given: the worker data it leaves and the
`TileParseResult` it returns. -/
def VectorTileData.parseWork (h : TileDataDecl) (t : VectorTileData) (parsed : TileWorker)
    (result : TileParseResult) : Option VectorTileData :=
  if t.state != .loaded && t.state != .partialTile then some t
  else VectorTileData.parseCommit h t parsed result

/-- `VectorTileData::getBucket`, vector_tile_data.cpp:94-100. -/
def VectorTileData.getBucket (h : TileDataDecl) (t : VectorTileData) (layer : StyleLayer) :
    Option Bucket :=
  match layer.bucket with
  | none => none
  | some name => if !h.isReady t.state then none else t.workerData.getBucket name

/-- `VectorTileData::redoPlacement(float, bool)`, vector_tile_data.cpp:120-134. -/
def VectorWorld.redoPlacement (w : VectorWorld) (angle : Angle) (collisionDebug : Bool) :
    VectorWorld :=
  if angle.ne w.tile.currentAngle || collisionDebug != w.tile.currentCollisionDebug then
    let t1 := { w.tile with lastAngle := angle, lastCollisionDebug := collisionDebug }
    if t1.state != .parsed || t1.redoingPlacement then { w with tile := t1 }
    else
      let t2 := { t1 with redoingPlacement := true, currentAngle := angle,
                          currentCollisionDebug := collisionDebug }
      let sent := w.worker.send (.placement angle collisionDebug) .endRedoPlacement
      { w with tile := { t2 with workRequest := some sent.1 },
               worker := sent.2.release t2.workRequest }
  else w

/-- One iteration of the loop of `endRedoPlacement`, vector_tile_data.cpp:138-141:
the bucket of the layer, when `getBucket` returns one, has its render data
swapped in place. -/
def VectorTileData.swapLayer (h : TileDataDecl) (t : VectorTileData) (layer : StyleLayer) :
    VectorTileData :=
  match layer.bucket, VectorTileData.getBucket h t layer with
  | some name, some _ =>
    { t with workerData := t.workerData.modifyBucket name Bucket.swapRenderData }
  | _, _ => t

/-- `VectorTileData::endRedoPlacement`, vector_tile_data.cpp:136-145; the last
line is the parameterless `redoPlacement()` of lines 116-118. -/
def VectorWorld.endRedoPlacement (h : TileDataDecl) (w : VectorWorld) : VectorWorld :=
  let t1 := w.tile.workerData.layers.foldl (VectorTileData.swapLayer h) w.tile
  let t2 := { t1 with redoingPlacement := false }
  VectorWorld.redoPlacement { w with tile := t2 } t2.lastAngle t2.lastCollisionDebug

/-- `VectorTileData::cancel`, vector_tile_data.cpp:147-156. -/
def VectorWorld.cancel (w : VectorWorld) : VectorWorld :=
  let t1 := if w.tile.state != .obsolete then { w.tile with state := .obsolete } else w.tile
  let env1 := match t1.req with
    | some r => w.env.cancelRequest r
    | none => w.env
  { w with tile := { t1 with req := none, workRequest := none },
           env := env1,
           worker := w.worker.release t1.workRequest }

/-- Modelled from the spec: the environment completes the outstanding fetch
`id` (§6: a fetch delivers exactly one completion): the fetch leaves the
environment; `none` when no such fetch is outstanding. -/
def Environment.complete (env : Environment) (id : Nat) : Option (Request × Environment) :=
  match env.requests.find? (fun r => r.id == id) with
  | none => none
  | some r => some (r, { env with requests := env.requests.filter (fun q => q.id != id) })

/-- The fetch `id` of the environment completes with `res`: its lambda runs.
`none` when the fetch is not outstanding (or an assertion of the lambda
fails). -/
def VectorWorld.deliver (h : TileDataDecl) (w : VectorWorld) (id : Nat) (res : Response) :
    Option VectorWorld :=
  match w.env.complete id with
  | none => none
  | some (r, env1) => VectorWorld.onResponse h { w with env := env1 } r.url r.callback res

/-! ## The raster tile record -/

/-- Modelled from the spec: the single image bucket of a raster tile (§4.2;
`raster_tile_data.hpp` and `RasterBucket` are not among the sources). -/
structure RasterBucket where
  image : Option String
  deriving DecidableEq, Repr

/-- The data members `RasterTileData` uses in raster_tile_data.cpp, with
`state` and `error` of its base class `TileData`. -/
structure RasterTileData where
  state : State
  error : String
  req : Option Nat
  data : String
  bucket : RasterBucket
  workRequest : Option Nat
  deriving DecidableEq, Repr

/-- A raster tile record together with its collaborators, as `VectorWorld`. -/
structure RasterWorld where
  tile : RasterTileData
  env : Environment
  worker : Worker
  fired : List Callback
  deriving DecidableEq, Repr

/-- The constructor, raster_tile_data.cpp:12-19. The base class starts in
`initial`. -/
def RasterTileData.create : RasterTileData where
  state := .initial
  error := ""
  req := none
  data := ""
  bucket := { image := none }
  workRequest := none

/-- `RasterTileData::request`, raster_tile_data.cpp:25-58, up to the call of
`env.request`; `url` is the value of `source.tileURL(id, pixelRatio)`. The
lambda is `RasterWorld.onResponse`. -/
def RasterWorld.request (w : RasterWorld) (url : String) (callback : Callback) : RasterWorld :=
  let t1 := { w.tile with state := .loading }
  let issued := w.env.request url callback
  { w with tile := { t1 with req := some issued.1 }, env := issued.2 }

/-- The lambda passed to `env.request`, raster_tile_data.cpp:31-57, with its
captures `url` and `callback`, run on the response `res`. -/
def RasterWorld.onResponse (w : RasterWorld) (url : String) (callback : Callback)
    (res : Response) : RasterWorld :=
  let t1 := { w.tile with req := none }
  if !res.successful then
    let t2 := { t1 with error := "Failed to load [" ++ url ++ "]: " ++ res.message,
                        state := .obsolete }
    { w with tile := t2, fired := w.fired ++ [callback] }
  else
    let t2 := { t1 with state := .loaded, data := res.data }
    let sent := w.worker.send .decode (.callback callback)
    { w with tile := { t2 with workRequest := some sent.1 },
             worker := sent.2.release t2.workRequest }

/-- The lambda sent to the worker, raster_tile_data.cpp:46-56. `setImage` is
`RasterBucket::setImage` (code not among the sources): from the bucket and the
bytes, whether the decode succeeded and the bucket it leaves. -/
def RasterTileData.decodeWork (setImage : RasterBucket → String → Bool × RasterBucket)
    (t : RasterTileData) : RasterTileData :=
  if t.state != .loaded then t
  else
    let r := setImage t.bucket t.data
    if r.1 then { t with bucket := r.2, state := .parsed }
    else { t with bucket := r.2, state := .invalid }

/-- `RasterTileData::reparse`, raster_tile_data.cpp:60-62: `assert(false)`. -/
def RasterWorld.reparse (_w : RasterWorld) (_callback : Callback) : Option (Bool × RasterWorld) :=
  none

/-- `RasterTileData::getBucket`, raster_tile_data.cpp:64-66: `&bucket`. -/
def RasterTileData.getBucket (t : RasterTileData) (_layer : StyleLayer) : Option RasterBucket :=
  some t.bucket

/-- `RasterTileData::cancel`, raster_tile_data.cpp:68-77. -/
def RasterWorld.cancel (w : RasterWorld) : RasterWorld :=
  let t1 := if w.tile.state != .obsolete then { w.tile with state := .obsolete } else w.tile
  let env1 := match t1.req with
    | some r => w.env.cancelRequest r
    | none => w.env
  { w with tile := { t1 with req := none, workRequest := none },
           env := env1,
           worker := w.worker.release t1.workRequest }

/-- The fetch `id` of the environment completes with `res`: its lambda runs.
`none` when the fetch is not outstanding. -/
def RasterWorld.deliver (w : RasterWorld) (id : Nat) (res : Response) : Option RasterWorld :=
  match w.env.complete id with
  | none => none
  | some (r, env1) => some (RasterWorld.onResponse { w with env := env1 } r.url r.callback res)

/-- A world around a freshly constructed vector tile record: nothing is
outstanding in the environment or the worker, no callback has been invoked. -/
def VectorWorld.fresh (layers : List StyleLayer) (angle : Angle) (collisionDebug : Bool) :
    VectorWorld where
  tile := VectorTileData.create layers angle collisionDebug
  env := { nextRequest := 0, requests := [] }
  worker := { nextTask := 0, tasks := [] }
  fired := []

/-- A world around a freshly constructed raster tile record. -/
def RasterWorld.fresh : RasterWorld where
  tile := RasterTileData.create
  env := { nextRequest := 0, requests := [] }
  worker := { nextTask := 0, tasks := [] }
  fired := []

/-- A sequence of `redoPlacement(angle, collisionDebug)` calls, first to last. -/
def VectorWorld.redoPlacements (w : VectorWorld) (calls : List (Angle × Bool)) : VectorWorld :=
  calls.foldl (fun acc c => acc.redoPlacement c.1 c.2) w

/-- The placement task `redoPlacement` sends from the world `w` for the values
`angle` and `collisionDebug`: the next handle of the worker, the placement
lambda with these captures, and `endRedoPlacement` as completion callback. -/
def VectorWorld.placementTask (w : VectorWorld) (angle : Angle) (collisionDebug : Bool) : Task :=
  { id := w.worker.nextTask, work := .placement angle collisionDebug, after := .endRedoPlacement }

/-- A `parsed` vector tile record whose placement job for angle 0 is busy (task
0 of the worker, held by `workRequest`). -/
def VectorWorld.busyAtZero : VectorWorld where
  tile := { VectorTileData.create [] (.val 0) false with
              state := .parsed, redoingPlacement := true, workRequest := some 0 }
  env := { nextRequest := 0, requests := [] }
  worker := { nextTask := 1, tasks := [⟨0, .placement (.val 0) false, .endRedoPlacement⟩] }
  fired := []

/-- The unit of work of a task the vector record sent, run on the record: the
parse lambda, or the placement lambda of vector_tile_data.cpp:132, which only
calls `workerData.redoPlacement(angle, collisionDebug)` (code not among the
sources) and leaves the worker data as `wd`. The vector record never sends the
raster decode. -/
def VectorTileData.runWork (h : TileDataDecl) (t : VectorTileData) (work : Work)
    (wd : TileWorker) (result : TileParseResult) : Option VectorTileData :=
  match work with
  | .parse => VectorTileData.parseWork h t wd result
  | .placement _ _ => some { t with workerData := wd }
  | .decode => some t

/-- The completion callback of a task, run on the submitting context: the
caller's callback, or `endRedoPlacement`. -/
def VectorWorld.runAfter (h : TileDataDecl) (w : VectorWorld) : After → VectorWorld
  | .callback cb => { w with fired := w.fired ++ [cb] }
  | .endRedoPlacement => w.endRedoPlacement h

/-- Modelled from the spec: the worker completes the task `id` (§4.1): its work
runs once, the task leaves the worker, then its completion callback runs. `none`
when the worker holds no such task (it never was sent, has completed, or its
handle was destroyed), or when an assertion of the work fails. `wd` and `result`
are the outcome of the routine the work calls. -/
def VectorWorld.complete (h : TileDataDecl) (w : VectorWorld) (id : Nat) (wd : TileWorker)
    (result : TileParseResult) : Option VectorWorld :=
  match w.worker.tasks.find? (fun t => t.id == id) with
  | none => none
  | some task =>
    match VectorTileData.runWork h w.tile task.work wd result with
    | none => none
    | some t => some (VectorWorld.runAfter h { w with tile := t, worker := w.worker.cancel id }
        task.after)

/-- What can happen to a vector tile record: a call of one of its public member
functions, the completion of one of its fetches, the completion of one of its
worker tasks (whose callback may be `endRedoPlacement`). -/
inductive VectorOp
  | request (url : String) (callback : Callback)
  | deliver (id : Nat) (res : Response)
  | reparse (callback : Callback)
  | complete (id : Nat) (wd : TileWorker) (result : TileParseResult)
  | redoPlacement (angle : Angle) (collisionDebug : Bool)
  | cancel
  deriving DecidableEq, Repr

/-- One operation on the world; `none` when it cannot happen there. -/
def VectorWorld.step (h : TileDataDecl) (w : VectorWorld) : VectorOp → Option VectorWorld
  | .request url callback => some (w.request url callback)
  | .deliver id res => w.deliver h id res
  | .reparse callback => some (w.reparse callback).2
  | .complete id wd result => w.complete h id wd result
  | .redoPlacement angle collisionDebug => some (w.redoPlacement angle collisionDebug)
  | .cancel => some w.cancel

/-- A sequence of operations, first to last. -/
def VectorWorld.run (h : TileDataDecl) (w : VectorWorld) : List VectorOp → Option VectorWorld
  | [] => some w
  | op :: ops =>
    match w.step h op with
    | none => none
    | some w2 => w2.run h ops

/-- Whether `workRequest` is the handle of a task the worker still holds whose
completion callback is `endRedoPlacement`, that is, of a live placement job. -/
def VectorWorld.holdsPlacementJob (w : VectorWorld) : Bool :=
  match w.tile.workRequest with
  | none => false
  | some id => w.worker.tasks.any (fun t => t.id == id && t.after == .endRedoPlacement)

/-- The operations that take a fresh record to `parsed` (request, successful
fetch, parse job yielding `parsed`) and then start a placement for angle 1. -/
def VectorOp.startPlacement : List VectorOp :=
  [.request "u" 1,
   .deliver 0 ⟨true, "", "bytes"⟩,
   .complete 0 (VectorTileData.create [] (.val 0) false).workerData (.state .parsed),
   .redoPlacement (.val 1) false]

/-- The operations of `startPlacement`, then a `reparse` while that placement is
busy. -/
def VectorOp.reparseDuringPlacement : List VectorOp :=
  VectorOp.startPlacement ++ [.reparse 2]

/-! ## Lemmas -/

/-- After `cancel` the state of a vector tile record is `obsolete`. -/
theorem vector_cancel_state (w : VectorWorld) : w.cancel.tile.state = .obsolete := by
  unfold VectorWorld.cancel
  by_cases hs : w.tile.state = .obsolete <;> simp [hs]

/-- After `cancel` the state of a raster tile record is `obsolete`. -/
theorem raster_cancel_state (w : RasterWorld) : w.cancel.tile.state = .obsolete := by
  unfold RasterWorld.cancel
  by_cases hs : w.tile.state = .obsolete <;> simp [hs]

/-- While a placement is busy on a `parsed` record, `redoPlacement` only records
the desired values, and only when they differ from the currently-computed
ones. -/
theorem redoPlacement_busy (w : VectorWorld) (angle : Angle) (collisionDebug : Bool)
    (hs : w.tile.state = .parsed) (hb : w.tile.redoingPlacement = true) :
    w.redoPlacement angle collisionDebug =
      if angle.ne w.tile.currentAngle || collisionDebug != w.tile.currentCollisionDebug then
        { w with tile := { w.tile with lastAngle := angle, lastCollisionDebug := collisionDebug } }
      else w := by
  unfold VectorWorld.redoPlacement
  simp [hs, hb]

/-- A sequence of `redoPlacement` calls on a `parsed` record with a placement
busy changes nothing but the desired values. -/
theorem redoPlacements_busy (calls : List (Angle × Bool)) (w : VectorWorld)
    (hs : w.tile.state = .parsed) (hb : w.tile.redoingPlacement = true) :
    ∃ la ld, w.redoPlacements calls =
      { w with tile := { w.tile with lastAngle := la, lastCollisionDebug := ld } } := by
  induction calls generalizing w with
  | nil => exact ⟨w.tile.lastAngle, w.tile.lastCollisionDebug, rfl⟩
  | cons c rest ih =>
    have hstep := redoPlacement_busy w c.1 c.2 hs hb
    simp only [VectorWorld.redoPlacements, List.foldl_cons] at ih ⊢
    rw [hstep]
    split
    · obtain ⟨la, ld, hrest⟩ := ih
        { w with tile := { w.tile with lastAngle := c.1, lastCollisionDebug := c.2 } } hs hb
      exact ⟨la, ld, hrest⟩
    · exact ih w hs hb

/-- The loop of `endRedoPlacement` touches the worker data only. -/
theorem swapLayers_fields (h : TileDataDecl) (layers : List StyleLayer) (t : VectorTileData) :
    layers.foldl (VectorTileData.swapLayer h) t =
      { t with workerData := (layers.foldl (VectorTileData.swapLayer h) t).workerData } := by
  induction layers generalizing t with
  | nil => rfl
  | cons l rest ih =>
    simp only [List.foldl_cons]
    rw [ih]
    have hl : VectorTileData.swapLayer h t l =
        { t with workerData := (VectorTileData.swapLayer h t l).workerData } := by
      unfold VectorTileData.swapLayer
      split <;> rfl
    generalize (List.foldl (VectorTileData.swapLayer h) (VectorTileData.swapLayer h t l)
      rest).workerData = wd
    rw [hl]

/-- The method `redoPlacement` never writes the state. -/
theorem redoPlacement_state (w : VectorWorld) (angle : Angle) (collisionDebug : Bool) :
    (w.redoPlacement angle collisionDebug).tile.state = w.tile.state := by
  unfold VectorWorld.redoPlacement
  by_cases hd : (angle.ne w.tile.currentAngle ||
      collisionDebug != w.tile.currentCollisionDebug) = true
  · rw [if_pos hd]
    simp only
    split <;> rfl
  · rw [if_neg hd]

/-- The method `endRedoPlacement` never writes the state. -/
theorem endRedoPlacement_state (h : TileDataDecl) (w : VectorWorld) :
    (w.endRedoPlacement h).tile.state = w.tile.state := by
  unfold VectorWorld.endRedoPlacement
  simp only
  rw [redoPlacement_state, swapLayers_fields]

/-- The method `reparse` never writes the state. -/
theorem reparse_state (w : VectorWorld) (callback : Callback) :
    (w.reparse callback).2.tile.state = w.tile.state := by
  unfold VectorWorld.reparse
  simp only
  split <;> rfl

/-! ## The claims -/

/-- C1, evaluated on the code: `obsolete` is not terminal. On every record in
state `obsolete`, vector or raster, `request` leaves the state `loading`, and the
fetch lambda run with a successful response leaves it `loaded`. The other
operations do keep the state: `reparse`, the parse job (which returns at its
first test), `redoPlacement`, `endRedoPlacement` and `cancel` on the vector
record; the fetch lambda with a failed response, the decode job and `cancel` on
the raster record. -/
theorem request_leaves_obsolete (h : TileDataDecl) (v : VectorWorld) (r : RasterWorld)
    (url : String) (callback : Callback) (res : Response) (angle : Angle) (collisionDebug : Bool)
    (parsed : TileWorker) (result : TileParseResult)
    (setImage : RasterBucket → String → Bool × RasterBucket)
    (hv : v.tile.state = .obsolete) (hr : r.tile.state = .obsolete) :
    ((v.request url callback).tile.state = .loading ∧
      (v.onResponse h url callback { res with successful := true }).map
        (fun w => w.tile.state) = some .loaded ∧
      (r.request url callback).tile.state = .loading ∧
      (r.onResponse url callback { res with successful := true }).tile.state = .loaded) ∧
    ((v.reparse callback).2.tile.state = .obsolete ∧
      VectorTileData.parseWork h v.tile parsed result = some v.tile ∧
      (v.redoPlacement angle collisionDebug).tile.state = .obsolete ∧
      (v.endRedoPlacement h).tile.state = .obsolete ∧
      v.cancel.tile.state = .obsolete ∧
      (r.onResponse url callback { res with successful := false }).tile.state = .obsolete ∧
      r.tile.decodeWork setImage = r.tile ∧
      r.cancel.tile.state = .obsolete) := by
  refine ⟨⟨rfl, ?_, rfl, rfl⟩, ?_, ?_, ?_, ?_, vector_cancel_state v, rfl, ?_,
    raster_cancel_state r⟩
  · simp only [VectorWorld.onResponse, Bool.not_true, Bool.false_eq_true, if_false,
      Option.map_some', reparse_state]
  · rw [reparse_state, hv]
  · simp [VectorTileData.parseWork, hv]
  · rw [redoPlacement_state, hv]
  · rw [endRedoPlacement_state, hv]
  · simp [RasterTileData.decodeWork, hr]

/-- Witness of `request_leaves_obsolete` on a cancelled fresh vector record and
a cancelled fresh raster record: `request` takes both from `obsolete` to
`loading`. -/
theorem request_leaves_obsolete_witness :
    (VectorWorld.fresh [] (.val 0) false).cancel.tile.state = .obsolete ∧
    ((VectorWorld.fresh [] (.val 0) false).cancel.request "u" 7).tile.state = .loading ∧
    RasterWorld.fresh.cancel.tile.state = .obsolete ∧
    (RasterWorld.fresh.cancel.request "u" 7).tile.state = .loading :=
  ⟨rfl,
   (request_leaves_obsolete TileDataDecl.header (VectorWorld.fresh [] (.val 0) false).cancel
      RasterWorld.fresh.cancel "u" 7 ⟨false, "", ""⟩ (.val 0) false
      (VectorTileData.create [] (.val 0) false).workerData (.state .parsed)
      (fun b _ => (false, b)) rfl rfl).1.1,
   rfl,
   (request_leaves_obsolete TileDataDecl.header (VectorWorld.fresh [] (.val 0) false).cancel
      RasterWorld.fresh.cancel "u" 7 ⟨false, "", ""⟩ (.val 0) false
      (VectorTileData.create [] (.val 0) false).workerData (.state .parsed)
      (fun b _ => (false, b)) rfl rfl).1.2.2.1⟩

/-- C2: `reparse` with the in-flight guard set returns false and changes
nothing (no task is sent; state, data and work handle are as before); with the
guard clear it returns true, sets the guard, and sends exactly one task, the
parse job with the caller's callback (the worker gets that one task appended and
then loses the task of the handle held before), whose handle becomes the work
handle, state and data staying as they were. -/
theorem reparse_guard (w : VectorWorld) (callback : Callback) :
    (w.tile.parsing = true → w.reparse callback = (false, w)) ∧
    (w.tile.parsing = false →
      (w.reparse callback).1 = true ∧
      (w.reparse callback).2.tile.parsing = true ∧
      (w.reparse callback).2.worker.nextTask = w.worker.nextTask + 1 ∧
      (w.reparse callback).2.worker =
        Worker.release
          { nextTask := w.worker.nextTask + 1,
            tasks := w.worker.tasks ++ [(⟨w.worker.nextTask, .parse, .callback callback⟩ : Task)] }
          w.tile.workRequest ∧
      (w.reparse callback).2.tile.workRequest = some w.worker.nextTask ∧
      (w.reparse callback).2.tile.state = w.tile.state ∧
      (w.reparse callback).2.tile.data = w.tile.data ∧
      (w.reparse callback).2.env = w.env ∧
      (w.reparse callback).2.fired = w.fired) := by
  refine ⟨fun hp => ?_, fun hp => ?_⟩
  · obtain ⟨t, env, worker, fired⟩ := w
    obtain ⟨st, er, rq, da, wd, wr, pa, la, ca, ld, cd, rp⟩ := t
    simp only at hp
    subst hp
    rfl
  · obtain ⟨t, env, worker, fired⟩ := w
    obtain ⟨st, er, rq, da, wd, wr, pa, la, ca, ld, cd, rp⟩ := t
    simp only at hp
    subst hp
    cases wr <;>
      simp [VectorWorld.reparse, VectorTileData.mayStartParsing, Worker.send, Worker.release,
        Worker.cancel]

/-- Witness of `reparse_guard` on a freshly constructed record: the guard is
clear, so the first `reparse` is accepted; on its result the guard is set, so
the second is refused and changes nothing. -/
theorem reparse_guard_witness :
    ((({ tile := VectorTileData.create [] (.val 0) false, env := ⟨0, []⟩,
         worker := ⟨0, []⟩, fired := [] } : VectorWorld).reparse 7).1 = true) ∧
    (((({ tile := VectorTileData.create [] (.val 0) false, env := ⟨0, []⟩,
          worker := ⟨0, []⟩, fired := [] } : VectorWorld).reparse 7).2.reparse 8).1 = false) :=
  ⟨((reparse_guard _ 7).2 rfl).1,
   congrArg Prod.fst ((reparse_guard
      (({ tile := VectorTileData.create [] (.val 0) false, env := ⟨0, []⟩,
          worker := ⟨0, []⟩, fired := [] } : VectorWorld).reparse 7).2 8).1 rfl)⟩

/-- C3, evaluated on the code: the parse job does not always clear the
in-flight guard. On a record in state `parsed` with the guard clear, `reparse`
is accepted and sets the guard; the job, whatever the parse routine would
yield, returns at its first test without calling `endParsing`, so the guard is
still set when it has completed, and the next `reparse` returns false. -/
theorem parse_job_leaves_guard_set (h : TileDataDecl) (w : VectorWorld) (cb cb2 : Callback)
    (parsed : TileWorker) (result : TileParseResult) :
    (VectorWorld.reparse
      { w with tile := { w.tile with state := .parsed, parsing := false } } cb).1 = true ∧
    (VectorTileData.parseWork h (VectorWorld.reparse
      { w with tile := { w.tile with state := .parsed, parsing := false } } cb).2.tile
        parsed result).map (fun t => t.parsing) = some true ∧
    (VectorTileData.parseWork h (VectorWorld.reparse
      { w with tile := { w.tile with state := .parsed, parsing := false } } cb).2.tile
        parsed result).map
      (fun t => (VectorWorld.reparse
        { (VectorWorld.reparse
            { w with tile := { w.tile with state := .parsed, parsing := false } } cb).2
          with tile := t } cb2).1) = some false := by
  refine ⟨rfl, rfl, rfl⟩

/-- C4, evaluated on the code: a second `request` does not cancel the fetch of
the first. After two `request` calls on any record, vector or raster, both
fetches are outstanding in the environment and the record only holds the handle
of the second; on a fresh record, the first fetch can then still complete: its
lambda runs, invokes the callback of the first request and clears the handle of
the second, whose fetch is still outstanding. -/
theorem second_request_keeps_first_fetch (v : VectorWorld) (r : RasterWorld) (u1 u2 : String)
    (c1 c2 : Callback) :
    ((v.request u1 c1).request u2 c2).env.requests =
      v.env.requests ++ [⟨v.env.nextRequest, u1, c1⟩, ⟨v.env.nextRequest + 1, u2, c2⟩] ∧
    ((v.request u1 c1).request u2 c2).tile.req = some (v.env.nextRequest + 1) ∧
    ((r.request u1 c1).request u2 c2).env.requests =
      r.env.requests ++ [⟨r.env.nextRequest, u1, c1⟩, ⟨r.env.nextRequest + 1, u2, c2⟩] ∧
    ((r.request u1 c1).request u2 c2).tile.req = some (r.env.nextRequest + 1) ∧
    (RasterWorld.deliver ((RasterWorld.fresh.request u1 c1).request u2 c2) 0
        ⟨false, "", ""⟩).map (fun w => (w.fired, w.tile.req, w.env.requests)) =
      some ([c1], none, [⟨1, u2, c2⟩]) ∧
    (VectorWorld.deliver TileDataDecl.header
        (((VectorWorld.fresh [] (.val 0) false).request u1 c1).request u2 c2) 0
        ⟨false, "", ""⟩).map (fun w => (w.fired, w.tile.req, w.env.requests)) =
      some ([c1], none, [⟨1, u2, c2⟩]) := by
  refine ⟨?_, rfl, ?_, rfl, rfl, rfl⟩ <;>
    simp [VectorWorld.request, RasterWorld.request, Environment.request]

/-- C5: when the fetch of a record in state `loading` completes with a response
that is not successful, the lambda leaves the error message
"Failed to load [" ++ url ++ "]: " ++ res.message (it contains the URL and the
response message), the state `obsolete` and no fetch handle, invokes the
request's callback exactly once, and sends nothing to the worker. For the vector
record the assertion of `setState` passes when `loading` is not immutable; the
raster lambda assigns the state directly and does so from every state. -/
theorem fetch_failure (h : TileDataDecl) (v : VectorWorld) (r : RasterWorld) (url : String)
    (callback : Callback) (res : Response)
    (hv : v.tile.state = .loading)
    (himm : h.isImmutable .loading = false) (hres : res.successful = false) :
    (∃ v2, v.onResponse h url callback res = some v2 ∧
      v2.tile.error = "Failed to load [" ++ url ++ "]: " ++ res.message ∧
      v2.tile.state = .obsolete ∧ v2.tile.req = none ∧
      v2.fired = v.fired ++ [callback] ∧ v2.worker = v.worker ∧ v2.env = v.env) ∧
    ((r.onResponse url callback res).tile.error =
        "Failed to load [" ++ url ++ "]: " ++ res.message ∧
      (r.onResponse url callback res).tile.state = .obsolete ∧
      (r.onResponse url callback res).tile.req = none ∧
      (r.onResponse url callback res).fired = r.fired ++ [callback] ∧
      (r.onResponse url callback res).worker = r.worker ∧
      (r.onResponse url callback res).env = r.env) := by
  constructor
  · by_cases ho : h.isImmutable .obsolete = true <;>
      simp [VectorWorld.onResponse, VectorTileData.setError, VectorTileData.setState, hres, hv,
        himm, ho]
  · simp [RasterWorld.onResponse, hres]

/-- Witness of `fetch_failure`: a fresh vector and a fresh raster record, each
after one `request`, are `loading`; the failed response leaves them `obsolete`
with the callback 7 invoked once. -/
theorem fetch_failure_witness :
    (∃ v2, ((VectorWorld.fresh [] (.val 0) false).request "u" 7).onResponse TileDataDecl.header
        "u" 7 ⟨false, "m", ""⟩ = some v2 ∧
      v2.tile.state = .obsolete ∧ v2.fired = [7]) ∧
    ((RasterWorld.fresh.request "u" 7).onResponse "u" 7 ⟨false, "m", ""⟩).tile.state
      = .obsolete := by
  have key := fetch_failure TileDataDecl.header ((VectorWorld.fresh [] (.val 0) false).request "u" 7)
    (RasterWorld.fresh.request "u" 7) "u" 7 ⟨false, "m", ""⟩ rfl rfl rfl
  obtain ⟨⟨v2, h1, _, h3, _, h5, _, _⟩, _, h8, _⟩ := key
  exact ⟨⟨v2, h1, h3, h5⟩, h8⟩

/-- C6: `cancel` is idempotent on the record and on its collaborators, for the
vector and for the raster record: a second `cancel` changes nothing; after one
call the state is `obsolete`, the fetch handle is null and the work handle is
empty. The handles are not merely forgotten: the fetch the record held is no
longer outstanding in the environment (`env.cancelRequest`), the task the
record held has left the worker (the `WorkRequest` is destroyed), every other
fetch and task is as before, and no callback is invoked. -/
theorem cancel_idempotent (v : VectorWorld) (r : RasterWorld) :
    v.cancel.cancel = v.cancel ∧
    v.cancel.tile.state = .obsolete ∧ v.cancel.tile.req = none ∧
    v.cancel.tile.workRequest = none ∧
    r.cancel.cancel = r.cancel ∧
    r.cancel.tile.state = .obsolete ∧ r.cancel.tile.req = none ∧
    r.cancel.tile.workRequest = none ∧
    (v.cancel.env.requests = v.env.requests.filter (fun q => some q.id != v.tile.req) ∧
      v.cancel.env.nextRequest = v.env.nextRequest ∧
      (∀ q ∈ v.cancel.env.requests, some q.id ≠ v.tile.req) ∧
      v.cancel.worker.tasks = v.worker.tasks.filter (fun t => some t.id != v.tile.workRequest) ∧
      v.cancel.worker.nextTask = v.worker.nextTask ∧
      (∀ t ∈ v.cancel.worker.tasks, some t.id ≠ v.tile.workRequest) ∧
      v.cancel.fired = v.fired) ∧
    (r.cancel.env.requests = r.env.requests.filter (fun q => some q.id != r.tile.req) ∧
      r.cancel.env.nextRequest = r.env.nextRequest ∧
      (∀ q ∈ r.cancel.env.requests, some q.id ≠ r.tile.req) ∧
      r.cancel.worker.tasks = r.worker.tasks.filter (fun t => some t.id != r.tile.workRequest) ∧
      r.cancel.worker.nextTask = r.worker.nextTask ∧
      (∀ t ∈ r.cancel.worker.tasks, some t.id ≠ r.tile.workRequest) ∧
      r.cancel.fired = r.fired) := by
  have hv1 : v.cancel.env.requests =
      v.env.requests.filter (fun q => some q.id != v.tile.req) := by
    unfold VectorWorld.cancel
    by_cases hs : v.tile.state = .obsolete <;> cases hq : v.tile.req <;>
      simp [hs, hq, Environment.cancelRequest, bne]
  have hv2 : v.cancel.worker.tasks =
      v.worker.tasks.filter (fun t => some t.id != v.tile.workRequest) := by
    unfold VectorWorld.cancel
    by_cases hs : v.tile.state = .obsolete <;> cases hq : v.tile.workRequest <;>
      simp [hs, hq, Worker.release, Worker.cancel, bne]
  have hr1 : r.cancel.env.requests =
      r.env.requests.filter (fun q => some q.id != r.tile.req) := by
    unfold RasterWorld.cancel
    by_cases hs : r.tile.state = .obsolete <;> cases hq : r.tile.req <;>
      simp [hs, hq, Environment.cancelRequest, bne]
  have hr2 : r.cancel.worker.tasks =
      r.worker.tasks.filter (fun t => some t.id != r.tile.workRequest) := by
    unfold RasterWorld.cancel
    by_cases hs : r.tile.state = .obsolete <;> cases hq : r.tile.workRequest <;>
      simp [hs, hq, Worker.release, Worker.cancel, bne]
  refine ⟨?_, vector_cancel_state v, rfl, rfl, ?_, raster_cancel_state r, rfl, rfl,
    ⟨hv1, ?_, ?_, hv2, ?_, ?_, rfl⟩, ⟨hr1, ?_, ?_, hr2, ?_, ?_, rfl⟩⟩
  · unfold VectorWorld.cancel
    by_cases hs : v.tile.state = .obsolete <;> simp [hs, Worker.release]
  · unfold RasterWorld.cancel
    by_cases hs : r.tile.state = .obsolete <;> simp [hs, Worker.release]
  · unfold VectorWorld.cancel
    by_cases hs : v.tile.state = .obsolete <;> cases hq : v.tile.req <;>
      simp [hs, hq, Environment.cancelRequest]
  · intro q hq
    rw [hv1] at hq
    simpa using (List.mem_filter.mp hq).2
  · unfold VectorWorld.cancel
    by_cases hs : v.tile.state = .obsolete <;> cases hq : v.tile.workRequest <;>
      simp [hs, hq, Worker.release, Worker.cancel]
  · intro t ht
    rw [hv2] at ht
    simpa using (List.mem_filter.mp ht).2
  · unfold RasterWorld.cancel
    by_cases hs : r.tile.state = .obsolete <;> cases hq : r.tile.req <;>
      simp [hs, hq, Environment.cancelRequest]
  · intro q hq
    rw [hr1] at hq
    simpa using (List.mem_filter.mp hq).2
  · unfold RasterWorld.cancel
    by_cases hs : r.tile.state = .obsolete <;> cases hq : r.tile.workRequest <;>
      simp [hs, hq, Worker.release, Worker.cancel]
  · intro t ht
    rw [hr2] at ht
    simpa using (List.mem_filter.mp ht).2

/-- Witness of `cancel_idempotent`: a vector record with a fetch outstanding
and a raster record with a decode task outstanding; after `cancel` the
environment holds no fetch of the first and the worker no task of the
second. -/
theorem cancel_idempotent_witness :
    ((VectorWorld.fresh [] (.val 0) false).request "u" 7).env.requests = [⟨0, "u", 7⟩] ∧
    ((VectorWorld.fresh [] (.val 0) false).request "u" 7).cancel.env.requests = [] ∧
    ((RasterWorld.fresh.request "u" 7).onResponse "u" 7 ⟨true, "", "bytes"⟩).worker.tasks =
      [⟨0, .decode, .callback 7⟩] ∧
    ((RasterWorld.fresh.request "u" 7).onResponse "u" 7 ⟨true, "", "bytes"⟩).cancel.worker.tasks
      = [] :=
  ⟨rfl,
   (cancel_idempotent ((VectorWorld.fresh [] (.val 0) false).request "u" 7)
      RasterWorld.fresh).2.2.2.2.2.2.2.2.1.1.trans rfl,
   rfl,
   (cancel_idempotent (VectorWorld.fresh [] (.val 0) false)
      ((RasterWorld.fresh.request "u" 7).onResponse "u" 7
        ⟨true, "", "bytes"⟩)).2.2.2.2.2.2.2.2.2.2.2.2.1.trans rfl⟩

/-- C7 as stated fails: on a `loaded` record the parse job whose parse routine
yields the error message "e" leaves the state `obsolete`, and under no reading
of the absent declarations does it leave the state `invalid`. -/
theorem parse_error_not_invalid :
    (VectorTileData.parseWork TileDataDecl.header
        { VectorTileData.create [] (.val 0) false with state := .loaded }
        (VectorTileData.create [] (.val 0) false).workerData (.error "e")).map
      (fun t => (t.state, t.error)) = some (.obsolete, "e") ∧
    ¬ ∃ h : TileDataDecl, ∃ t2,
      VectorTileData.parseWork h
        { VectorTileData.create [] (.val 0) false with state := .loaded }
        (VectorTileData.create [] (.val 0) false).workerData (.error "e") = some t2 ∧
      t2.state = .invalid := by
  refine ⟨rfl, ?_⟩
  rintro ⟨h, t2, h1, h2⟩
  by_cases hl : h.isImmutable .loaded = true <;> by_cases ho : h.isImmutable .obsolete = true <;>
    simp [VectorTileData.parseWork, VectorTileData.parseCommit, VectorTileData.setError,
      VectorTileData.setState, VectorTileData.create, hl, ho] at h1 <;>
    subst h1 <;> simp [VectorTileData.endParsing] at h2

/-- C7, amended: on a record in state `loaded` or `partial` (a state in which the
assertion of `setState` passes), the parse job whose parse routine yields an
error message records that message on the record, leaves the state `obsolete`
(through `setError`) and clears the in-flight guard. -/
theorem parse_error_obsolete (h : TileDataDecl) (t : VectorTileData) (parsed : TileWorker)
    (message : String) (hs : t.state = .loaded ∨ t.state = .partialTile)
    (himm : h.isImmutable t.state = false) :
    ∃ t2, VectorTileData.parseWork h t parsed (.error message) = some t2 ∧
      t2.error = message ∧ t2.state = .obsolete ∧ t2.parsing = false := by
  by_cases ho : h.isImmutable .obsolete = true <;> rcases hs with hs | hs <;>
    rw [hs] at himm <;>
    simp [VectorTileData.parseWork, VectorTileData.parseCommit, VectorTileData.setError,
      VectorTileData.setState, hs, ho, himm] <;>
    exact ⟨rfl, rfl, rfl⟩

/-- Witness of `parse_error_obsolete` on a `loaded` record. -/
theorem parse_error_obsolete_witness :
    ∃ t2, VectorTileData.parseWork TileDataDecl.header
        { VectorTileData.create [] (.val 0) false with state := .loaded }
        (VectorTileData.create [] (.val 0) false).workerData (.error "e") = some t2 ∧
      t2.error = "e" ∧ t2.state = .obsolete ∧ t2.parsing = false :=
  parse_error_obsolete TileDataDecl.header
    { VectorTileData.create [] (.val 0) false with state := .loaded }
    (VectorTileData.create [] (.val 0) false).workerData "e" (Or.inl rfl) rfl

/-- C8: the raster worker job, run on a `loaded` record (the state the fetch
lambda leaves with the job it sends), sets the state to `parsed` when
`setImage` succeeds and to `invalid` when it fails, and leaves the error message
as it was; run on a record in any other state (`obsolete` after a cancel, for
one) it changes nothing, neither the state nor the bucket. -/
theorem raster_decode_job (setImage : RasterBucket → String → Bool × RasterBucket)
    (w : RasterWorld) (t : RasterTileData) (url : String) (callback : Callback) (data : String) :
    (w.onResponse url callback ⟨true, "", data⟩).tile.state = .loaded ∧
    (w.onResponse url callback ⟨true, "", data⟩).worker =
      Worker.release
        { nextTask := w.worker.nextTask + 1,
          tasks := w.worker.tasks ++ [(⟨w.worker.nextTask, .decode, .callback callback⟩ : Task)] }
        w.tile.workRequest ∧
    (t.state = .loaded → (setImage t.bucket t.data).1 = true →
      (t.decodeWork setImage).state = .parsed ∧ (t.decodeWork setImage).error = t.error) ∧
    (t.state = .loaded → (setImage t.bucket t.data).1 = false →
      (t.decodeWork setImage).state = .invalid ∧ (t.decodeWork setImage).error = t.error) ∧
    (t.state ≠ .loaded → t.decodeWork setImage = t) := by
  refine ⟨rfl, rfl, fun hs hi => ?_, fun hs hi => ?_, fun hs => ?_⟩
  · simp [RasterTileData.decodeWork, hs, hi]
  · simp [RasterTileData.decodeWork, hs, hi]
  · simp [RasterTileData.decodeWork, hs]

/-- C9: `redoPlacement(angle, collisionDebug)` sends a placement task exactly
when the requested values differ (`!=`) from the currently-computed ones, the
state is `parsed` and no placement is busy. When it sends, the worker gets that
one task appended (and loses the task of the handle held before), the busy flag
is set and the currently-computed values are the requested ones. Otherwise the
worker, the busy flag and the currently-computed values are as before; and when
the requested values equal the currently-computed ones nothing changes at all. -/
theorem redoPlacement_submits_iff (w : VectorWorld) (angle : Angle) (collisionDebug : Bool) :
    (((angle.ne w.tile.currentAngle || collisionDebug != w.tile.currentCollisionDebug) = true ∧
        w.tile.state = .parsed ∧ w.tile.redoingPlacement = false) →
      (w.redoPlacement angle collisionDebug).worker =
        Worker.release
          { nextTask := w.worker.nextTask + 1,
            tasks := w.worker.tasks ++ [w.placementTask angle collisionDebug] }
          w.tile.workRequest ∧
      (w.redoPlacement angle collisionDebug).tile.workRequest = some w.worker.nextTask ∧
      (w.redoPlacement angle collisionDebug).tile.redoingPlacement = true ∧
      (w.redoPlacement angle collisionDebug).tile.currentAngle = angle ∧
      (w.redoPlacement angle collisionDebug).tile.currentCollisionDebug = collisionDebug) ∧
    (¬ ((angle.ne w.tile.currentAngle || collisionDebug != w.tile.currentCollisionDebug) = true ∧
        w.tile.state = .parsed ∧ w.tile.redoingPlacement = false) →
      (w.redoPlacement angle collisionDebug).worker = w.worker ∧
      (w.redoPlacement angle collisionDebug).tile.workRequest = w.tile.workRequest ∧
      (w.redoPlacement angle collisionDebug).tile.redoingPlacement = w.tile.redoingPlacement ∧
      (w.redoPlacement angle collisionDebug).tile.currentAngle = w.tile.currentAngle ∧
      (w.redoPlacement angle collisionDebug).tile.currentCollisionDebug =
        w.tile.currentCollisionDebug) ∧
    ((angle.ne w.tile.currentAngle || collisionDebug != w.tile.currentCollisionDebug) = false →
      w.redoPlacement angle collisionDebug = w) := by
  refine ⟨fun hc => ?_, fun hc => ?_, fun hd => ?_⟩
  · obtain ⟨hd, hs, hb⟩ := hc
    unfold VectorWorld.redoPlacement
    rw [if_pos hd]
    simp [hs, hb, Worker.send, VectorWorld.placementTask]
  · unfold VectorWorld.redoPlacement
    by_cases hd : (angle.ne w.tile.currentAngle ||
        collisionDebug != w.tile.currentCollisionDebug) = true
    · rw [if_pos hd]
      have hc2 : ¬ (w.tile.state = .parsed ∧ w.tile.redoingPlacement = false) :=
        fun hx => hc ⟨hd, hx⟩
      by_cases hs : w.tile.state = .parsed
      · have hb : w.tile.redoingPlacement = true := by
          cases hbb : w.tile.redoingPlacement
          · exact absurd ⟨hs, hbb⟩ hc2
          · rfl
        simp [hs, hb]
      · simp [hs]
    · rw [if_neg hd]
      simp
  · unfold VectorWorld.redoPlacement
    rw [if_neg (by simp [hd])]

/-- Witness of `redoPlacement_submits_iff`: on a `parsed` record computed for
angle 0 with no placement busy, the request for angle 1 sends the placement
task for angle 1. -/
theorem redoPlacement_submits_iff_witness :
    (VectorWorld.redoPlacement
      { VectorWorld.busyAtZero with
          tile := { VectorWorld.busyAtZero.tile with redoingPlacement := false } }
      (.val 1) false).tile.currentAngle = .val 1 :=
  ((redoPlacement_submits_iff
      { VectorWorld.busyAtZero with
          tile := { VectorWorld.busyAtZero.tile with redoingPlacement := false } }
      (.val 1) false).1 ⟨rfl, rfl, rfl⟩).2.2.2.1

/-- C10 as stated fails. On a `parsed` record computed for angle 0 with the
placement job busy: after the calls `redoPlacement(1, false)` and
`redoPlacement(0, false)`, `endRedoPlacement` sends a follow-up job for angle 1,
the value of the intermediate call, not for angle 0, the value of the last
call; and after the single call `redoPlacement(0, false)`, `endRedoPlacement`
sends no job at all. -/
theorem follow_up_not_latest :
    ((VectorWorld.busyAtZero.redoPlacements
        [(.val 1, false), (.val 0, false)]).endRedoPlacement TileDataDecl.header).worker =
      { nextTask := 2, tasks := [⟨1, .placement (.val 1) false, .endRedoPlacement⟩] } ∧
    ((VectorWorld.busyAtZero.redoPlacements
        [(.val 0, false)]).endRedoPlacement TileDataDecl.header).worker =
      VectorWorld.busyAtZero.worker := by
  constructor <;> rfl

/-- C10, amended: on a `parsed` vector tile record with a placement job busy,
no call of a sequence of `redoPlacement` calls sends a job (the worker is as
before after the whole sequence, for every sequence); and when the values of
the last call differ (`!=`) from the currently-computed values,
`endRedoPlacement` sends exactly one follow-up job, the placement job for the
angle and debug flag of the last call, which become the currently-computed
values, the busy flag being set again. -/
theorem follow_up_latest (h : TileDataDecl) (w : VectorWorld) (calls : List (Angle × Bool))
    (angle : Angle) (collisionDebug : Bool)
    (hs : w.tile.state = .parsed) (hb : w.tile.redoingPlacement = true)
    (hd : (angle.ne w.tile.currentAngle ||
            collisionDebug != w.tile.currentCollisionDebug) = true) :
    (w.redoPlacements calls).worker = w.worker ∧
    (w.redoPlacements (calls ++ [(angle, collisionDebug)])).worker = w.worker ∧
    ((w.redoPlacements (calls ++ [(angle, collisionDebug)])).endRedoPlacement h).worker =
      Worker.release
        { nextTask := w.worker.nextTask + 1,
          tasks := w.worker.tasks ++ [w.placementTask angle collisionDebug] }
        w.tile.workRequest ∧
    ((w.redoPlacements (calls ++ [(angle, collisionDebug)])).endRedoPlacement h).tile.currentAngle
      = angle ∧
    ((w.redoPlacements (calls ++ [(angle, collisionDebug)])).endRedoPlacement
      h).tile.currentCollisionDebug = collisionDebug ∧
    ((w.redoPlacements (calls ++ [(angle, collisionDebug)])).endRedoPlacement
      h).tile.redoingPlacement = true := by
  obtain ⟨la, ld, hcalls⟩ := redoPlacements_busy calls w hs hb
  have hlast : w.redoPlacements (calls ++ [(angle, collisionDebug)]) =
      { w with tile := { w.tile with lastAngle := angle, lastCollisionDebug := collisionDebug } } := by
    have hfold : w.redoPlacements (calls ++ [(angle, collisionDebug)]) =
        (w.redoPlacements calls).redoPlacement angle collisionDebug := by
      simp [VectorWorld.redoPlacements, List.foldl_append]
    rw [hfold, hcalls, redoPlacement_busy _ angle collisionDebug (by exact hs) (by exact hb)]
    simp only at hd ⊢
    rw [if_pos hd]
  refine ⟨by rw [hcalls], by rw [hlast], ?_⟩
  rw [hlast]
  unfold VectorWorld.endRedoPlacement
  simp only
  rw [swapLayers_fields]
  unfold VectorWorld.redoPlacement
  simp only
  rw [if_pos hd]
  simp [hs, Worker.send, VectorWorld.placementTask]

/-- Witness of `follow_up_latest`: with angle 0 computed and busy, the calls for
angles 1, 2 and 3 send nothing, and `endRedoPlacement` then sends the job for
angle 3. -/
theorem follow_up_latest_witness :
    ((VectorWorld.busyAtZero.redoPlacements
        ([(.val 1, false), (.val 2, false)] ++ [(.val 3, false)])).endRedoPlacement
      TileDataDecl.header).tile.currentAngle = .val 3 :=
  (follow_up_latest TileDataDecl.header VectorWorld.busyAtZero [(.val 1, false), (.val 2, false)]
    (.val 3) false rfl rfl rfl).2.2.2.1

/-- C11 as stated fails on the raster record: `getBucket` returns the bucket of
a freshly constructed record (state `initial`) and of a cancelled one (state
`obsolete`). -/
theorem raster_getBucket_not_parsed :
    RasterWorld.fresh.tile.state = .initial ∧
    RasterWorld.fresh.tile.getBucket ⟨"layer", some "bucket"⟩ = some ⟨none⟩ ∧
    RasterWorld.fresh.cancel.tile.state = .obsolete ∧
    RasterWorld.fresh.cancel.tile.getBucket ⟨"layer", some "bucket"⟩ = some ⟨none⟩ :=
  ⟨rfl, rfl, rfl, rfl⟩

/-- C11, amended: `getBucket` of the vector record returns a bucket only if
`isReady()` holds of the state (and then the layer has a style bucket and the
result is the bucket the worker data stores under its name); in every state
where `isReady()` does not hold it returns the absent result; so where
`isReady()` holds of `parsed` alone, a bucket is returned only in state
`parsed`. `getBucket` of the raster record returns the bucket of the record in
every state. -/
theorem getBucket_gate (h : TileDataDecl) (t : VectorTileData) (r : RasterTileData)
    (layer : StyleLayer) :
    (h.isReady t.state = false → t.getBucket h layer = none) ∧
    (∀ b, t.getBucket h layer = some b →
      h.isReady t.state = true ∧
      ∃ name, layer.bucket = some name ∧ t.workerData.getBucket name = some b) ∧
    ((∀ s, h.isReady s = true → s = .parsed) →
      ∀ b, t.getBucket h layer = some b → t.state = .parsed) ∧
    r.getBucket layer = some r.bucket := by
  have key : ∀ b, t.getBucket h layer = some b →
      h.isReady t.state = true ∧
      ∃ name, layer.bucket = some name ∧ t.workerData.getBucket name = some b := by
    intro b hb
    unfold VectorTileData.getBucket at hb
    cases hl : layer.bucket with
    | none => simp [hl] at hb
    | some name =>
      cases hr : h.isReady t.state with
      | false => simp [hl, hr] at hb
      | true =>
        simp [hl, hr] at hb
        exact ⟨rfl, name, rfl, hb⟩
  refine ⟨fun hr => ?_, key, fun honly b hb => honly _ (key b hb).1, rfl⟩
  unfold VectorTileData.getBucket
  cases layer.bucket <;> simp [hr]

/-- Witness of `getBucket_gate`: on a `parsed` vector record whose worker data
stores a bucket under "a", `getBucket` of a layer with style bucket "a" returns
that bucket, and `isReady()` holds there. -/
theorem getBucket_gate_witness :
    VectorTileData.getBucket TileDataDecl.header
      { VectorTileData.create [] (.val 0) false with
          state := .parsed,
          workerData := { layers := [], buckets := [("a", ⟨1, 2⟩)],
                          collision := ⟨.val 0, false, []⟩ } }
      ⟨"layer", some "a"⟩ = some ⟨1, 2⟩ ∧
    TileDataDecl.header.isReady .parsed = true :=
  ⟨rfl,
   ((getBucket_gate TileDataDecl.header
      { VectorTileData.create [] (.val 0) false with
          state := .parsed,
          workerData := { layers := [], buckets := [("a", ⟨1, 2⟩)],
                          collision := ⟨.val 0, false, []⟩ } }
      RasterTileData.create ⟨"layer", some "a"⟩).2.1 ⟨1, 2⟩ rfl).1⟩

/-- C12, evaluated on the code: a `reparse` while a placement is busy takes the
work handle away from the placement job. From a fresh record, request,
successful fetch and a parse job yielding `parsed`, then `redoPlacement(1,
false)`: the busy flag is set and `workRequest` holds the live placement job.
After `reparse` the state is still `parsed` and the flag still set, but
`workRequest` is the handle of the parse job and the placement task has left
the worker, so `endRedoPlacement` will not run: once the parse job has
completed the worker holds no task, the flag is still set, and a further
`redoPlacement` sends nothing. -/
theorem reparse_drops_placement_handle :
    ((VectorWorld.fresh [] (.val 0) false).run TileDataDecl.header VectorOp.startPlacement).map
        (fun w => (w.tile.redoingPlacement, w.tile.state, w.tile.workRequest,
          w.holdsPlacementJob)) =
      some (true, .parsed, some 1, true) ∧
    ((VectorWorld.fresh [] (.val 0) false).run TileDataDecl.header
        VectorOp.reparseDuringPlacement).map
        (fun w => (w.tile.redoingPlacement, w.tile.state, w.tile.workRequest, w.worker.tasks,
          w.holdsPlacementJob)) =
      some (true, .parsed, some 2, [⟨2, .parse, .callback 2⟩], false) ∧
    ((VectorWorld.fresh [] (.val 0) false).run TileDataDecl.header
        (VectorOp.reparseDuringPlacement ++
          [.complete 2 (VectorTileData.create [] (.val 0) false).workerData (.state .parsed),
           .redoPlacement (.val 5) true])).map
        (fun w => (w.tile.redoingPlacement, w.tile.state, w.worker.tasks, w.worker.nextTask)) =
      some (true, .parsed, [], 3) := by
  refine ⟨?_, ?_, ?_⟩ <;> rfl

end mbgl
